import Mathlib

/-
Verification of the dive-planning calculation core of the scuba-tools
repository (src/js/script.js).  The script contains two revisions of the
core functions; the later revision (the "corrected version" of the
surface-interval table, lines 520-960) is the one embedded here, as it is
the revision the specification declares authoritative.

Modelling conventions:
* JS numbers are modelled as exact rationals (depths, pressures) or as
  natural numbers (minute counts, which are integral throughout the
  tables).
* A time string "h:mm" is modelled as the pair (h, mm); the open-ended
  sentinel string is modelled as the missing case of an Option.
* A pressure-group letter string is modelled by the inductive PGroup; a
  caller-supplied group string that may be unrecognized is modelled as
  Option PGroup (none standing for any string that is not a table key).
* JS object lookup is modelled by alookup over association lists kept in
  the object's insertion order (numeric keys iterate in ascending order,
  exactly the order written in the source).
* Thrown errors and null results are modelled with Option; the
  display-message fields of result objects are presentation only and are
  not modelled.
-/

/-- Pressure-group letters A..K (script.js tables). -/
inductive PGroup where
  | A | B | C | D | E | F | G | H | I | J | K
deriving DecidableEq, Repr, Fintype

/-- Position of a group letter in the alphabet A < B < ... < K
(increasing nitrogen loading). -/
def pgIdx : PGroup → ℕ
  | .A => 0 | .B => 1 | .C => 2 | .D => 3 | .E => 4 | .F => 5
  | .G => 6 | .H => 7 | .I => 8 | .J => 9 | .K => 10

/-- Association-list lookup, modelling JS object indexing. -/
def alookup {α β : Type} [DecidableEq α] (key : α) : List (α × β) → Option β
  | [] => none
  | (k, v) :: rest => if key = k then some v else alookup key rest

/-- Unit conversion, script.js:520: 1 ATA at the surface plus 1 ATA per
33 ft of seawater. -/
def ftToATA (feet : ℚ) : ℚ := 1 + feet / 33

/-- Unit conversion, script.js:525. -/
def ataToFT (ata : ℚ) : ℚ := (ata - 1) * 33

/-- script.js:530. -/
def percentToDecimal (percent : ℚ) : ℚ := percent / 100

/-- script.js:534. -/
def decimalToPercent (decimal : ℚ) : ℚ := decimal * 100

/-- Navy Table 1 band at 10 ft (script.js:599). -/
def band10 : ℕ × List (ℕ × PGroup) :=
  (60 * 5, [(60, .A), (120, .B), (210, .C), (300, .D)])

/-- Navy Table 1 band at 15 ft (script.js:600). -/
def band15 : ℕ × List (ℕ × PGroup) :=
  (60 * 5, [(35, .A), (70, .B), (110, .C), (160, .D), (225, .E), (350, .F)])

/-- Navy Table 1 band at 20 ft (script.js:601). -/
def band20 : ℕ × List (ℕ × PGroup) :=
  (325, [(25, .A), (50, .B), (75, .C), (100, .D), (135, .E), (180, .F),
         (240, .G), (325, .H)])

/-- Navy Table 1 band at 25 ft (script.js:602). -/
def band25 : ℕ × List (ℕ × PGroup) :=
  (245, [(20, .A), (35, .B), (55, .C), (75, .D), (100, .E), (125, .F),
         (160, .G), (195, .H), (245, .I)])

/-- Navy Table 1 band at 30 ft (script.js:603). -/
def band30 : ℕ × List (ℕ × PGroup) :=
  (205, [(15, .A), (30, .B), (45, .C), (60, .D), (75, .E), (95, .F),
         (120, .G), (145, .H), (170, .I), (205, .J)])

/-- Navy Table 1 band at 35 ft (script.js:604). -/
def band35 : ℕ × List (ℕ × PGroup) :=
  (160, [(5, .A), (15, .B), (25, .C), (40, .D), (50, .E), (60, .F),
         (80, .G), (100, .H), (120, .I), (140, .J), (160, .K)])

/-- Navy Table 1 band at 40 ft (script.js:605). -/
def band40 : ℕ × List (ℕ × PGroup) :=
  (130, [(5, .A), (15, .B), (25, .C), (30, .D), (40, .E), (50, .F),
         (70, .G), (80, .H), (100, .I), (110, .J), (130, .K)])

/-- Navy Table 1 band at 50 ft (script.js:606). -/
def band50 : ℕ × List (ℕ × PGroup) :=
  (70, [(10, .B), (15, .C), (25, .D), (30, .E), (40, .F), (50, .G),
        (60, .H), (70, .I)])

/-- Navy Table 1 band at 60 ft (script.js:607). -/
def band60 : ℕ × List (ℕ × PGroup) :=
  (50, [(10, .B), (15, .C), (20, .D), (25, .E), (30, .F), (40, .G), (50, .H)])

/-- Navy Table 1 band at 70 ft (script.js:608). -/
def band70 : ℕ × List (ℕ × PGroup) :=
  (40, [(5, .B), (10, .C), (15, .D), (20, .E), (30, .F), (35, .G), (40, .H)])

/-- Navy Table 1 band at 80 ft (script.js:609). -/
def band80 : ℕ × List (ℕ × PGroup) :=
  (30, [(5, .B), (10, .C), (15, .D), (20, .E), (25, .F), (30, .G)])

/-- Navy Table 1 band at 90 ft (script.js:610). -/
def band90 : ℕ × List (ℕ × PGroup) :=
  (25, [(5, .B), (10, .C), (12, .D), (15, .E), (20, .F), (25, .G)])

/-- Navy Table 1 band at 100 ft (script.js:611). -/
def band100 : ℕ × List (ℕ × PGroup) :=
  (20, [(5, .B), (7, .C), (10, .D), (15, .E), (20, .F)])

/-- Navy Table 1 band at 110 ft (script.js:612). -/
def band110 : ℕ × List (ℕ × PGroup) :=
  (15, [(5, .B), (10, .C), (13, .D), (15, .E)])

/-- Navy Table 1 band at 120 ft (script.js:613). -/
def band120 : ℕ × List (ℕ × PGroup) :=
  (10, [(5, .C), (10, .D)])

/-- Navy Table 1 band at 130 ft (script.js:614). -/
def band130 : ℕ × List (ℕ × PGroup) :=
  (5, [(5, .D)])

/-- Navy Table 1: depth -> (max no-deco limit, bottom-time thresholds
with their group letters), script.js:596-615.  Kept in the source's key
order, which is ascending. -/
def navyTable1 : List (ℚ × ℕ × List (ℕ × PGroup)) :=
  [(10, band10), (15, band15), (20, band20), (25, band25), (30, band30),
   (35, band35), (40, band40), (50, band50), (60, band60), (70, band70),
   (80, band80), (90, band90), (100, band100), (110, band110),
   (120, band120), (130, band130)]

/-- The list of Table 1 depths, as produced by
Object.keys(navyTable1).map(Number) in script.js:797. -/
def tableDepths : List ℚ := navyTable1.map Prod.fst

/-- script.js:796-817.  Returns the first table depth that the requested
depth is at most, clamps depths below the first key up to it, and returns
the -1 sentinel above the last key (130 ft). -/
def findClosestDepth (depth : ℚ) : ℚ :=
  if depth < 10 then 10
  else if depth > 130 then -1
  else
    match tableDepths.find? (fun x => decide (depth ≤ x)) with
    | some x => x
    | none => -1

/-- The threshold scan of script.js:848-853: the group of the first
threshold that bottomTime is at most.  The source sorts the thresholds
ascending before scanning; the embedded lists are already in that
order. -/
def lookupGroup (bottomTime : ℕ) : List (ℕ × PGroup) → Option PGroup
  | [] => none
  | (t, g) :: rest => if bottomTime ≤ t then some g else lookupGroup bottomTime rest

/-- Result of getSingleDiveInfo (script.js:820-861); the message field is
presentation only and is not modelled. -/
structure DiveResult where
  noDecoLimit : ℕ
  pressureGroup : Option PGroup
  isExceeded : Bool
deriving DecidableEq, Repr

/-- Body of getSingleDiveInfo after depth normalization
(script.js:823-860). -/
def singleGo (tableDepth : ℚ) (bottomTime : ℕ) : DiveResult :=
  if tableDepth = -1 then ⟨0, none, true⟩
  else
    match alookup tableDepth navyTable1 with
    | none => ⟨0, none, true⟩
    | some (maxNDL, timeGroups) =>
      if bottomTime > maxNDL then ⟨maxNDL, none, true⟩
      else ⟨maxNDL, lookupGroup bottomTime timeGroups, false⟩

/-- script.js:820-861. -/
def getSingleDiveInfo (depth : ℚ) (bottomTime : ℕ) : DiveResult :=
  singleGo (findClosestDepth depth) bottomTime


/-- script.js:864-867: parse "h:mm" (modelled as the pair (h, mm)) into
total minutes. -/
def parseTimeToMinutes (t : ℕ × ℕ) : ℕ := t.1 * 60 + t.2

/-- One row of Navy Table 2: (target group, minimum time, maximum time).
The target is none for the fully-off-gassed column keyed 'None'; the
maximum is none for the open-ended sentinel written '--'. -/
def SIRange : Type := Option PGroup × (ℕ × ℕ) × Option (ℕ × ℕ)

/-- Navy Table 2 row for starting group K (script.js:622-635). -/
def t2K : List SIRange :=
  [(some .K, (0,10), some (0,28)), (some .J, (0,29), some (0,49)),
   (some .I, (0,50), some (1,11)), (some .H, (1,12), some (1,35)),
   (some .G, (1,36), some (2,3)), (some .F, (2,4), some (2,38)),
   (some .E, (2,39), some (3,21)), (some .D, (3,22), some (4,19)),
   (some .C, (4,20), some (5,48)), (some .B, (5,49), some (8,58)),
   (some .A, (8,59), some (11,59)), (none, (12,0), none)]

/-- Navy Table 2 row for starting group J (script.js:636-648). -/
def t2J : List SIRange :=
  [(some .J, (0,10), some (0,31)), (some .I, (0,32), some (0,54)),
   (some .H, (0,55), some (1,19)), (some .G, (1,20), some (1,47)),
   (some .F, (1,48), some (2,20)), (some .E, (2,21), some (3,4)),
   (some .D, (3,5), some (4,2)), (some .C, (4,3), some (5,40)),
   (some .B, (5,41), some (8,50)), (some .A, (8,51), some (11,59)),
   (none, (12,0), none)]

/-- Navy Table 2 row for starting group I (script.js:649-660). -/
def t2I : List SIRange :=
  [(some .I, (0,10), some (0,33)), (some .H, (0,34), some (0,59)),
   (some .G, (1,0), some (1,29)), (some .F, (1,30), some (2,2)),
   (some .E, (2,3), some (2,44)), (some .D, (2,45), some (3,43)),
   (some .C, (3,44), some (5,12)), (some .B, (5,13), some (8,21)),
   (some .A, (8,22), some (11,59)), (none, (12,0), none)]

/-- Navy Table 2 row for starting group H (script.js:661-671). -/
def t2H : List SIRange :=
  [(some .H, (0,10), some (0,36)), (some .G, (0,37), some (1,6)),
   (some .F, (1,7), some (1,41)), (some .E, (1,42), some (2,23)),
   (some .D, (2,24), some (3,20)), (some .C, (3,21), some (4,49)),
   (some .B, (4,50), some (7,59)), (some .A, (8,0), some (11,59)),
   (none, (12,0), none)]

/-- Navy Table 2 row for starting group G (script.js:672-681). -/
def t2G : List SIRange :=
  [(some .G, (0,10), some (0,40)), (some .F, (0,41), some (1,15)),
   (some .E, (1,16), some (1,59)), (some .D, (2,0), some (2,58)),
   (some .C, (2,59), some (4,25)), (some .B, (4,26), some (7,35)),
   (some .A, (7,36), some (11,59)), (none, (12,0), none)]

/-- Navy Table 2 row for starting group F (script.js:682-690). -/
def t2F : List SIRange :=
  [(some .F, (0,10), some (0,45)), (some .E, (0,46), some (1,29)),
   (some .D, (1,30), some (2,28)), (some .C, (2,29), some (3,57)),
   (some .B, (3,58), some (7,5)), (some .A, (7,6), some (11,59)),
   (none, (12,0), none)]

/-- Navy Table 2 row for starting group E (script.js:691-698). -/
def t2E : List SIRange :=
  [(some .E, (0,10), some (0,54)), (some .D, (0,55), some (1,57)),
   (some .C, (1,58), some (3,24)), (some .B, (3,25), some (6,34)),
   (some .A, (6,35), some (11,59)), (none, (12,0), none)]

/-- Navy Table 2 row for starting group D (script.js:699-705). -/
def t2D : List SIRange :=
  [(some .D, (0,10), some (1,9)), (some .C, (1,10), some (2,38)),
   (some .B, (2,39), some (5,48)), (some .A, (5,49), some (11,59)),
   (none, (12,0), none)]

/-- Navy Table 2 row for starting group C (script.js:706-711). -/
def t2C : List SIRange :=
  [(some .C, (0,10), some (1,39)), (some .B, (1,40), some (4,49)),
   (some .A, (4,50), some (11,59)), (none, (12,0), none)]

/-- Navy Table 2 row for starting group B (script.js:712-716). -/
def t2B : List SIRange :=
  [(some .B, (0,10), some (3,20)), (some .A, (3,21), some (11,59)),
   (none, (12,0), none)]

/-- Navy Table 2 row for starting group A (script.js:717-720). -/
def t2A : List SIRange :=
  [(some .A, (0,10), some (11,59)), (none, (12,0), none)]

/-- Navy Table 2: surface interval credit (script.js:620-721), keyed by
starting group in the source's insertion order K..A. -/
def navyTable2 : List (PGroup × List SIRange) :=
  [(.K, t2K), (.J, t2J), (.I, t2I), (.H, t2H), (.G, t2G), (.F, t2F),
   (.E, t2E), (.D, t2D), (.C, t2C), (.B, t2B), (.A, t2A)]

/-- The range test of script.js:882-890: minMinutes <= t and t < the
parsed maximum (the '--' maximum is Infinity, so that side always
holds). -/
def rangeMatches (t : ℕ) (r : SIRange) : Bool :=
  decide (t ≥ parseTimeToMinutes r.2.1) &&
    (match r.2.2 with
     | none => true
     | some mx => decide (t < parseTimeToMinutes mx))

/-- The range scan of script.js:879-893: the first matching range wins;
a matched 'None' column and a failed scan both leave the result null. -/
def scanRanges (t : ℕ) : List SIRange → Option PGroup
  | [] => none
  | r :: rest => if rangeMatches t r then r.1 else scanRanges t rest

/-- script.js:870-894.  The starting group is an Option: none models any
caller string that is not a key of navyTable2. -/
def getNewPressureGroup (currentGroup : Option PGroup) (surfaceInterval : ℕ × ℕ) :
    Option PGroup :=
  match currentGroup with
  | none => none
  | some g =>
    match alookup g navyTable2 with
    | none => none
    | some ranges => scanRanges (parseTimeToMinutes surfaceInterval) ranges

/-- How many ranges of the starting group's row the code's range test
accepts at a given elapsed time. -/
def matchCount (currentGroup : Option PGroup) (t : ℕ) : ℕ :=
  match currentGroup with
  | none => 0
  | some g =>
    match alookup g navyTable2 with
    | none => 0
    | some ranges => ranges.countP (rangeMatches t)

/-- A Navy Table 3 cell value: a number of minutes or the 'N/L'
sentinel. -/
inductive NavyVal where
  | num (n : ℕ)
  | NL
deriving DecidableEq, Repr

/-- Navy Table 3 row at 10 ft (script.js:728-732). -/
def t3d10 : List (PGroup × NavyVal × NavyVal) :=
  [(.A, .num 39, .NL), (.B, .num 88, .NL), (.C, .num 159, .NL),
   (.D, .num 279, .NL), (.E, .NL, .NL), (.F, .NL, .NL), (.G, .NL, .NL),
   (.H, .NL, .NL), (.I, .NL, .NL), (.J, .NL, .NL), (.K, .NL, .NL)]

/-- Navy Table 3 row at 20 ft (script.js:733-737). -/
def t3d20 : List (PGroup × NavyVal × NavyVal) :=
  [(.A, .num 18, .NL), (.B, .num 39, .NL), (.C, .num 62, .NL),
   (.D, .num 88, .NL), (.E, .num 120, .NL), (.F, .num 159, .NL),
   (.G, .num 208, .NL), (.H, .num 279, .NL), (.I, .num 399, .NL),
   (.J, .NL, .NL), (.K, .NL, .NL)]

/-- Navy Table 3 row at 30 ft (script.js:738-742). -/
def t3d30 : List (PGroup × NavyVal × NavyVal) :=
  [(.A, .num 12, .num 193), (.B, .num 25, .num 180), (.C, .num 39, .num 166),
   (.D, .num 54, .num 151), (.E, .num 70, .num 135), (.F, .num 88, .num 117),
   (.G, .num 109, .num 96), (.H, .num 132, .num 73), (.I, .num 159, .num 46),
   (.J, .num 190, .num 15), (.K, .NL, .num 0)]

/-- Navy Table 3 row at 40 ft (script.js:743-747). -/
def t3d40 : List (PGroup × NavyVal × NavyVal) :=
  [(.A, .num 7, .num 123), (.B, .num 17, .num 113), (.C, .num 25, .num 105),
   (.D, .num 37, .num 93), (.E, .num 49, .num 81), (.F, .num 61, .num 69),
   (.G, .num 73, .num 57), (.H, .num 87, .num 43), (.I, .num 101, .num 29),
   (.J, .num 116, .num 14), (.K, .num 138, .num 0)]

/-- Navy Table 3 row at 50 ft (script.js:748-752). -/
def t3d50 : List (PGroup × NavyVal × NavyVal) :=
  [(.A, .num 6, .num 64), (.B, .num 13, .num 57), (.C, .num 21, .num 49),
   (.D, .num 29, .num 41), (.E, .num 38, .num 32), (.F, .num 47, .num 23),
   (.G, .num 56, .num 14), (.H, .num 66, .num 4), (.I, .NL, .num 0),
   (.J, .NL, .num 0), (.K, .NL, .num 0)]

/-- Navy Table 3 row at 60 ft (script.js:753-757). -/
def t3d60 : List (PGroup × NavyVal × NavyVal) :=
  [(.A, .num 5, .num 45), (.B, .num 11, .num 39), (.C, .num 17, .num 33),
   (.D, .num 24, .num 26), (.E, .num 30, .num 20), (.F, .num 36, .num 14),
   (.G, .num 44, .num 6), (.H, .NL, .num 0), (.I, .NL, .num 0),
   (.J, .NL, .num 0), (.K, .NL, .num 0)]

/-- Navy Table 3 row at 70 ft (script.js:758-762). -/
def t3d70 : List (PGroup × NavyVal × NavyVal) :=
  [(.A, .num 4, .num 36), (.B, .num 9, .num 31), (.C, .num 15, .num 25),
   (.D, .num 20, .num 20), (.E, .num 26, .num 14), (.F, .num 31, .num 9),
   (.G, .num 37, .num 3), (.H, .NL, .num 0), (.I, .NL, .num 0),
   (.J, .NL, .num 0), (.K, .NL, .num 0)]

/-- Navy Table 3 row at 80 ft (script.js:763-767). -/
def t3d80 : List (PGroup × NavyVal × NavyVal) :=
  [(.A, .num 4, .num 26), (.B, .num 8, .num 22), (.C, .num 13, .num 17),
   (.D, .num 18, .num 12), (.E, .num 23, .num 7), (.F, .num 28, .num 2),
   (.G, .NL, .num 0), (.H, .NL, .num 0), (.I, .NL, .num 0),
   (.J, .NL, .num 0), (.K, .NL, .num 0)]

/-- Navy Table 3 row at 90 ft (script.js:768-772). -/
def t3d90 : List (PGroup × NavyVal × NavyVal) :=
  [(.A, .num 3, .num 22), (.B, .num 7, .num 18), (.C, .num 11, .num 14),
   (.D, .num 16, .num 9), (.E, .num 20, .num 5), (.F, .num 24, .num 1),
   (.G, .NL, .num 0), (.H, .NL, .num 0), (.I, .NL, .num 0),
   (.J, .NL, .num 0), (.K, .NL, .num 0)]

/-- Navy Table 3 row at 100 ft (script.js:773-777). -/
def t3d100 : List (PGroup × NavyVal × NavyVal) :=
  [(.A, .num 3, .num 17), (.B, .num 7, .num 13), (.C, .num 10, .num 10),
   (.D, .num 14, .num 6), (.E, .num 18, .num 2), (.F, .NL, .num 0),
   (.G, .NL, .num 0), (.H, .NL, .num 0), (.I, .NL, .num 0),
   (.J, .NL, .num 0), (.K, .NL, .num 0)]

/-- Navy Table 3 row at 110 ft (script.js:778-782). -/
def t3d110 : List (PGroup × NavyVal × NavyVal) :=
  [(.A, .num 3, .num 12), (.B, .num 6, .num 9), (.C, .num 9, .num 6),
   (.D, .num 12, .num 3), (.E, .num 15, .num 0), (.F, .NL, .num 0),
   (.G, .NL, .num 0), (.H, .NL, .num 0), (.I, .NL, .num 0),
   (.J, .NL, .num 0), (.K, .NL, .num 0)]

/-- Navy Table 3 row at 120 ft (script.js:783-787). -/
def t3d120 : List (PGroup × NavyVal × NavyVal) :=
  [(.A, .num 3, .num 7), (.B, .num 6, .num 4), (.C, .num 9, .num 1),
   (.D, .NL, .num 0), (.E, .NL, .num 0), (.F, .NL, .num 0),
   (.G, .NL, .num 0), (.H, .NL, .num 0), (.I, .NL, .num 0),
   (.J, .NL, .num 0), (.K, .NL, .num 0)]

/-- Navy Table 3 row at 130 ft (script.js:788-792). -/
def t3d130 : List (PGroup × NavyVal × NavyVal) :=
  [(.A, .num 3, .num 2), (.B, .NL, .num 0), (.C, .NL, .num 0),
   (.D, .NL, .num 0), (.E, .NL, .num 0), (.F, .NL, .num 0),
   (.G, .NL, .num 0), (.H, .NL, .num 0), (.I, .NL, .num 0),
   (.J, .NL, .num 0), (.K, .NL, .num 0)]

/-- Navy Table 3: residual nitrogen time and adjusted no-deco limit
(script.js:724-793).  Note the key set skips 15, 25 and 35 ft. -/
def navyTable3 : List (ℚ × List (PGroup × NavyVal × NavyVal)) :=
  [(10, t3d10), (20, t3d20), (30, t3d30), (40, t3d40), (50, t3d50),
   (60, t3d60), (70, t3d70), (80, t3d80), (90, t3d90), (100, t3d100),
   (110, t3d110), (120, t3d120), (130, t3d130)]

/-- Result of getRepetitiveDiveInfo (script.js:897-927); message field
not modelled. -/
structure RepDiveResult where
  residualNitrogenTime : Option NavyVal
  adjustedNoDecoLimit : Option NavyVal
  isExceeded : Bool
deriving DecidableEq, Repr

/-- script.js:897-927. -/
def getRepetitiveDiveInfo (pressureGroup : PGroup) (depth : ℚ) : RepDiveResult :=
  let tableDepth := findClosestDepth depth
  if tableDepth = -1 then ⟨none, none, true⟩
  else
    match (alookup tableDepth navyTable3).bind (fun row => alookup pressureGroup row) with
    | none => ⟨none, none, true⟩
    | some (rnt, andl) =>
      if rnt = NavyVal.NL ∨ andl = NavyVal.num 0 then ⟨some rnt, some andl, true⟩
      else ⟨some rnt, some andl, false⟩

/-- script.js:930-936.  Note the already-normalized tableDepth (possibly
the -1 sentinel) is passed to getSingleDiveInfo, which normalizes it
again. -/
def getFinalPressureGroup (depth : ℚ) (actualBottomTime residualNitrogenTime : ℕ) :
    Option PGroup :=
  let tableDepth := findClosestDepth depth
  (getSingleDiveInfo tableDepth (actualBottomTime + residualNitrogenTime)).pressureGroup

/-- script.js:939-943. -/
def calculateEAD (depth o2Percentage : ℚ) : ℚ :=
  let n2Fraction := (100 - o2Percentage) / 100
  (depth + 10) * (n2Fraction / (79 / 100)) - 10

/-- script.js:946-949. -/
def calculateActualDepthFromEAD (ead o2Percentage : ℚ) : ℚ :=
  ((ead + 10) * (79 / 100)) / (1 - o2Percentage / 100) - 10

/-- Result of calculateDaltonsTriangle (script.js:539-591). -/
structure DaltonResult where
  depth : ℚ
  fO2 : ℚ
  pressure : ℚ
  pO2 : ℚ
  pN2 : ℚ
deriving DecidableEq, Repr

/-- Rounding of every numeric result field to 2 decimal places
(script.js:584-588, parseFloat(x.toFixed(2))). -/
def roundTo2 (x : ℚ) : ℚ :=
  ((Int.fdiv (2 * (x * 100).num + ((x * 100).den : ℤ)) (2 * ((x * 100).den : ℤ)) : ℤ) : ℚ) / 100

/-- Apply roundTo2 to every field of a DaltonResult. -/
def roundResult (r : DaltonResult) : DaltonResult :=
  ⟨roundTo2 r.depth, roundTo2 r.fO2, roundTo2 r.pressure, roundTo2 r.pO2,
   roundTo2 r.pN2⟩

/-- script.js:539-591: the three two-of-three cases; every other input
combination throws, modelled as none. -/
def calculateDaltonsTriangle (depth fO2 pO2 : Option ℚ) : Option DaltonResult :=
  match depth, fO2, pO2 with
  | some d, some f, none =>
    let pressure := ftToATA d
    some (roundResult ⟨d, f, pressure, pressure * f, pressure * (1 - f)⟩)
  | none, some f, some p =>
    let pressure := p / f
    some (roundResult ⟨ataToFT pressure, f, pressure, p, pressure * (1 - f)⟩)
  | some d, none, some p =>
    let pressure := ftToATA d
    let f := p / pressure
    some (roundResult ⟨d, f, pressure, p, pressure * (1 - f)⟩)
  | _, _, _ => none

/-- Number of present inputs among depth, fO2, pO2. -/
def numPresent (depth fO2 pO2 : Option ℚ) : ℕ :=
  (if depth.isSome then 1 else 0) + (if fO2.isSome then 1 else 0) +
    (if pO2.isSome then 1 else 0)


/-- A find? over a list succeeds when some element satisfies the
predicate. -/
theorem find?_total {α : Type} {p : α → Bool} :
    ∀ l : List α, (∃ y ∈ l, p y = true) → ∃ x, l.find? p = some x := by
  intro l
  induction l with
  | nil => rintro ⟨y, hy, _⟩; exact absurd hy (List.not_mem_nil y)
  | cons a t ih =>
    rintro ⟨y, hy, hpy⟩
    cases hpa : p a with
    | true => exact ⟨a, by simp only [List.find?, hpa]⟩
    | false =>
      rcases List.mem_cons.mp hy with rfl | hyt
      · rw [hpa] at hpy; exact absurd hpy (by simp)
      · obtain ⟨x, hx⟩ := ih ⟨y, hyt, hpy⟩
        exact ⟨x, by simp only [List.find?, hpa]; exact hx⟩

/-- On a list sorted by ≤, find? with the predicate d ≤ y returns an
element that is at least d, belongs to the list, and is least among the
list's elements that are at least d. -/
theorem find?_min (d : ℚ) :
    ∀ l : List ℚ, l.Pairwise (· ≤ ·) → ∀ x,
      l.find? (fun y => decide (d ≤ y)) = some x →
      d ≤ x ∧ x ∈ l ∧ ∀ y ∈ l, d ≤ y → x ≤ y := by
  intro l
  induction l with
  | nil => intro _ x hx; simp [List.find?] at hx
  | cons a t ih =>
    intro hpw x hx
    by_cases hda : d ≤ a
    · simp only [List.find?, decide_eq_true hda] at hx
      injection hx with hx
      subst hx
      refine ⟨hda, List.mem_cons_self a t, ?_⟩
      intro y hy _
      rcases List.mem_cons.mp hy with rfl | hyt
      · exact le_refl _
      · exact (List.pairwise_cons.mp hpw).1 y hyt
    · simp only [List.find?, decide_eq_false hda] at hx
      obtain ⟨h1, h2, h3⟩ := ih (List.pairwise_cons.mp hpw).2 x hx
      refine ⟨h1, List.mem_cons_of_mem a h2, ?_⟩
      intro y hy hdy
      rcases List.mem_cons.mp hy with rfl | hyt
      · exact absurd hdy hda
      · exact h3 y hyt hdy

/-- Above 130 ft the normalizer returns the -1 sentinel. -/
theorem fcd_over {d : ℚ} (h : 130 < d) : findClosestDepth d = -1 := by
  unfold findClosestDepth
  rw [if_neg (show ¬ d < 10 by push_neg; linarith), if_pos h]

/-- At or below 130 ft the normalizer returns the least table depth that
is at least the requested depth. -/
theorem fcd_below {d : ℚ} (h : d ≤ 130) :
    findClosestDepth d ∈ tableDepths ∧ d ≤ findClosestDepth d ∧
      ∀ x ∈ tableDepths, d ≤ x → findClosestDepth d ≤ x := by
  by_cases hd10 : d < 10
  · have he : findClosestDepth d = 10 := by unfold findClosestDepth; rw [if_pos hd10]
    rw [he]
    refine ⟨by decide, le_of_lt hd10, ?_⟩
    intro x hx _
    have hall : ∀ x ∈ tableDepths, (10 : ℚ) ≤ x := by decide
    exact hall x hx
  · have hn2 : ¬ d > 130 := not_lt.mpr h
    have hexists : ∃ y ∈ tableDepths, (fun y => decide (d ≤ y)) y = true :=
      ⟨130, by decide, decide_eq_true h⟩
    obtain ⟨x, hx⟩ := find?_total tableDepths hexists
    have he : findClosestDepth d = x := by
      unfold findClosestDepth; rw [if_neg hd10, if_neg hn2, hx]
    obtain ⟨h1, h2, h3⟩ := find?_min d tableDepths (by decide) x hx
    rw [he]
    exact ⟨h2, h1, h3⟩

/-- A non-sentinel normalized depth is a key of Table 1. -/
theorem fcd_mem {d : ℚ} (h : findClosestDepth d ≠ -1) :
    findClosestDepth d ∈ tableDepths := by
  by_cases h130 : 130 < d
  · exact absurd (fcd_over h130) h
  · exact (fcd_below (not_lt.mp h130)).1

/-- Table depths are fixed points of the normalizer. -/
theorem tableDepths_fixed : ∀ x ∈ tableDepths, findClosestDepth x = x := by decide

/-- alookup only returns pairs stored in the list. -/
theorem alookup_mem {α β : Type} [DecidableEq α] {k : α} {v : β} :
    ∀ {l : List (α × β)}, alookup k l = some v → (k, v) ∈ l := by
  intro l
  induction l with
  | nil => intro h; simp [alookup] at h
  | cons a t ih =>
    obtain ⟨k1, v1⟩ := a
    intro h
    simp only [alookup] at h
    by_cases hk : k = k1
    · rw [if_pos hk] at h
      injection h with h
      subst h; subst hk
      exact List.mem_cons_self _ _
    · rw [if_neg hk] at h
      exact List.mem_cons_of_mem _ (ih h)

/-- The threshold scan only returns groups stored in the list. -/
theorem lookupGroup_mem {t : ℕ} {g : PGroup} :
    ∀ {l : List (ℕ × PGroup)}, lookupGroup t l = some g → ∃ p ∈ l, p.2 = g := by
  intro l
  induction l with
  | nil => intro h; simp [lookupGroup] at h
  | cons a t' ih =>
    obtain ⟨n, g1⟩ := a
    intro h
    simp only [lookupGroup] at h
    by_cases hn : t ≤ n
    · rw [if_pos hn] at h
      injection h with h
      exact ⟨(n, g1), List.mem_cons_self _ _, h⟩
    · rw [if_neg hn] at h
      obtain ⟨p, hp, hpg⟩ := ih h
      exact ⟨p, List.mem_cons_of_mem _ hp, hpg⟩

/-- Order of a band's threshold rows by group severity. -/
def pgLE (a b : ℕ × PGroup) : Prop := pgIdx a.2 ≤ pgIdx b.2

instance : DecidableRel pgLE := fun a b => Nat.decLe (pgIdx a.2) (pgIdx b.2)

/-- On a band whose groups appear in non-decreasing severity, the
threshold scan is monotone in bottom time. -/
theorem lookupGroup_mono :
    ∀ l : List (ℕ × PGroup), l.Pairwise pgLE →
      ∀ {t₁ t₂ : ℕ}, t₁ ≤ t₂ → ∀ {g₁ g₂ : PGroup},
        lookupGroup t₁ l = some g₁ → lookupGroup t₂ l = some g₂ →
        pgIdx g₁ ≤ pgIdx g₂ := by
  intro l
  induction l with
  | nil => intro _ t₁ t₂ _ g₁ g₂ h1 _; simp [lookupGroup] at h1
  | cons a t ih =>
    intro hpw t₁ t₂ h12 g₁ g₂ h1 h2
    obtain ⟨n, g⟩ := a
    simp only [lookupGroup] at h1 h2
    by_cases ht2 : t₂ ≤ n
    · rw [if_pos (le_trans h12 ht2)] at h1
      rw [if_pos ht2] at h2
      injection h1 with h1; injection h2 with h2
      subst h1; subst h2
      exact le_refl _
    · rw [if_neg ht2] at h2
      by_cases ht1 : t₁ ≤ n
      · rw [if_pos ht1] at h1
        injection h1 with h1
        subst h1
        obtain ⟨p, hp, hpg⟩ := lookupGroup_mem h2
        have hle : pgIdx g ≤ pgIdx p.2 := (List.pairwise_cons.mp hpw).1 p hp
        rw [hpg] at hle
        exact hle
      · rw [if_neg ht1] at h1
        exact ih (List.pairwise_cons.mp hpw).2 h12 h1 h2

/-- Every Table 1 band lists its groups in non-decreasing severity. -/
theorem navyTable1_bands_sorted : ∀ p ∈ navyTable1, p.2.2.Pairwise pgLE := by decide

/-- C1 (code bug).  The claim says every elapsed time of at least 10
minutes matches exactly one range of the starting group's row.  The
code's range test (script.js:887) uses a strict upper comparison against
an inclusive table maximum, so the boundary minute of every range
matches zero ranges: starting from group K, 28 minutes (the stated
maximum '0:28' of the remain-in-K range, whose comment says any interval
under 29 minutes stays K) matches no range and yields null, while 27 and
29 minutes match their single ranges. -/
theorem surfaceInterval_boundary_gap :
    matchCount (some PGroup.K) 28 = 0 ∧
    getNewPressureGroup (some PGroup.K) (0, 28) = none ∧
    getNewPressureGroup (some PGroup.K) (0, 27) = some PGroup.K ∧
    getNewPressureGroup (some PGroup.K) (0, 29) = some PGroup.J := by decide

/-- C2 (code bug).  getFinalPressureGroup passes the already-normalized
table depth, including the -1 out-of-range sentinel, back into
getSingleDiveInfo; findClosestDepth clamps -1 up to the 10 ft band, so a
140 ft dive (out of table range) gets pressure group A from the 10 ft
row instead of the null that getSingleDiveInfo itself returns at
140 ft. -/
theorem finalPressureGroup_sentinel_bug :
    findClosestDepth 140 = -1 ∧
    getFinalPressureGroup 140 5 5 = some PGroup.A ∧
    (getSingleDiveInfo 140 10).pressureGroup = none ∧
    (getSingleDiveInfo 140 10).isExceeded = true := by decide

/-- For depths within table range the double normalization inside
getFinalPressureGroup is harmless: it agrees with getSingleDiveInfo on
the summed bottom time. -/
theorem finalPressureGroup_agrees_below_130 {d : ℚ} (h : d ≤ 130) (a r : ℕ) :
    getFinalPressureGroup d a r = (getSingleDiveInfo d (a + r)).pressureGroup := by
  show (singleGo (findClosestDepth (findClosestDepth d)) (a + r)).pressureGroup
      = (singleGo (findClosestDepth d) (a + r)).pressureGroup
  rw [tableDepths_fixed _ (fcd_below h).1]

/-- Closed instance of finalPressureGroup_agrees_below_130. -/
theorem finalPressureGroup_agrees_below_130_inst :
    getFinalPressureGroup 17 5 5 = (getSingleDiveInfo 17 (5 + 5)).pressureGroup :=
  finalPressureGroup_agrees_below_130 (by norm_num) 5 5

/-- C3 counterexample.  Depth 10 normalizes to the 10 ft band, yet a
bottom time of 0 yields pressure group A, not null: the scan of
script.js:848 accepts the first threshold since 0 is at most 60. -/
theorem singleDive_zero_cex :
    findClosestDepth 10 = 10 ∧
    (getSingleDiveInfo 10 0).pressureGroup = some PGroup.A := by decide

/-- First listed group of the band at a table depth. -/
def bandFirstGroup (tableDepth : ℚ) : Option PGroup :=
  match alookup tableDepth navyTable1 with
  | none => none
  | some (_, l) => l.head?.map Prod.snd

/-- C3 amended: for every depth that normalizes to a table band, a
bottom time of 0 yields the band's first listed (least severe) pressure
group, never null. -/
theorem singleDive_zero_first_group (d : ℚ) (hd : findClosestDepth d ≠ -1) :
    (getSingleDiveInfo d 0).pressureGroup = bandFirstGroup (findClosestDepth d) ∧
    (getSingleDiveInfo d 0).pressureGroup ≠ none := by
  have key : ∀ td ∈ tableDepths,
      (singleGo td 0).pressureGroup = bandFirstGroup td ∧
      (singleGo td 0).pressureGroup ≠ none := by decide
  exact key _ (fcd_mem hd)

/-- Witness for singleDive_zero_first_group at depth 25. -/
theorem singleDive_zero_first_group_witness :
    (getSingleDiveInfo 25 0).pressureGroup = bandFirstGroup (findClosestDepth 25) ∧
    (getSingleDiveInfo 25 0).pressureGroup ≠ none :=
  singleDive_zero_first_group 25 (by decide)

/-- C4 counterexample.  The Table 3 entry at 10 ft for group E has the
'N/L' sentinel as residual nitrogen time, but its adjusted
no-decompression limit is the 'N/L' sentinel as well, not 0. -/
theorem navyTable3_NL_cex :
    (alookup (10 : ℚ) navyTable3).bind (fun row => alookup PGroup.E row) =
      some (NavyVal.NL, NavyVal.NL) ∧ NavyVal.NL ≠ NavyVal.num 0 := by decide

/-- C4 amended: in every Table 3 entry whose residual nitrogen time is
the 'N/L' sentinel, the adjusted no-decompression limit is 0 or is
itself the 'N/L' sentinel (the latter only in the shallow 10/20 ft
rows). -/
theorem navyTable3_NL_adjusted_limit :
    ∀ p ∈ navyTable3, ∀ q ∈ p.2, q.2.1 = NavyVal.NL →
      q.2.2 = NavyVal.num 0 ∨ q.2.2 = NavyVal.NL := by decide

/-- Witness for navyTable3_NL_adjusted_limit at the 30 ft row, group
K. -/
theorem navyTable3_NL_adjusted_limit_witness :
    NavyVal.num 0 = NavyVal.num 0 ∨ NavyVal.num 0 = NavyVal.NL :=
  navyTable3_NL_adjusted_limit (30, t3d30) (by decide)
    (PGroup.K, NavyVal.NL, NavyVal.num 0) (by decide) rfl

/-- C5.  Thresholds are compared with bottomTime at most the threshold
(script.js:849), so a bottom time exactly equal to a threshold yields
that threshold's group: every in-limit threshold row of every band maps
to its own group (the limit qualifier matters only at 15 ft, whose 350
threshold exceeds the band's 300 minute cap and is caught by the NDL
check first); in particular 60 ft at 50 minutes gives limit 50, group H,
not exceeded, and at 51 minutes is exceeded. -/
theorem singleDive_tiebreak :
    getSingleDiveInfo 60 50 = ⟨50, some PGroup.H, false⟩ ∧
    (getSingleDiveInfo 60 51).isExceeded = true ∧
    ∀ b ∈ navyTable1, ∀ tg ∈ b.2.2, tg.1 ≤ b.2.1 →
      (getSingleDiveInfo b.1 tg.1).pressureGroup = some tg.2 := by decide

/-- Witness for singleDive_tiebreak: the 60 minute threshold of the
10 ft band yields its own group A. -/
theorem singleDive_tiebreak_witness :
    (getSingleDiveInfo 10 60).pressureGroup = some PGroup.A :=
  singleDive_tiebreak.2.2 (10, band10) (by decide) (60, PGroup.A) (by decide)
    (by decide)

/-- C6.  findClosestDepth returns the smallest table depth at least the
requested depth (clamping anything below 10 ft up to 10 ft), and above
130 ft returns the -1 sentinel, on which getSingleDiveInfo reports
exceeded for every bottom time. -/
theorem findClosestDepth_spec (d : ℚ) :
    ((130 : ℚ) < d → findClosestDepth d = -1 ∧
      ∀ t : ℕ, (getSingleDiveInfo d t).isExceeded = true) ∧
    (d ≤ 130 → findClosestDepth d ∈ tableDepths ∧ d ≤ findClosestDepth d ∧
      ∀ x ∈ tableDepths, d ≤ x → findClosestDepth d ≤ x) := by
  constructor
  · intro h
    have he := fcd_over h
    refine ⟨he, ?_⟩
    intro t
    show (singleGo (findClosestDepth d) t).isExceeded = true
    rw [he]
    unfold singleGo
    rw [if_pos rfl]
  · intro h
    exact fcd_below h

/-- Witness for findClosestDepth_spec at the requested depth 17, which
is between the 15 and 20 ft keys. -/
theorem findClosestDepth_spec_witness :
    findClosestDepth 17 ∈ tableDepths ∧ (17 : ℚ) ≤ findClosestDepth 17 := by
  have h := (findClosestDepth_spec 17).2 (by norm_num)
  exact ⟨h.1, h.2.1⟩

/-- C7.  For a depth within table range, getSingleDiveInfo is monotone
in bottom time: exceeded stays exceeded as the time grows, and when both
times yield a group the later group is never alphabetically earlier. -/
theorem singleDive_monotone (d : ℚ) (hd : findClosestDepth d ≠ -1)
    {t₁ t₂ : ℕ} (h : t₁ ≤ t₂) :
    ((getSingleDiveInfo d t₁).isExceeded = true →
      (getSingleDiveInfo d t₂).isExceeded = true) ∧
    ∀ g₁ g₂ : PGroup, (getSingleDiveInfo d t₁).pressureGroup = some g₁ →
      (getSingleDiveInfo d t₂).pressureGroup = some g₂ →
      pgIdx g₁ ≤ pgIdx g₂ := by
  simp only [getSingleDiveInfo]
  unfold singleGo
  simp only [if_neg hd]
  cases hlk : alookup (findClosestDepth d) navyTable1 with
  | none =>
    simp only [hlk]
    exact ⟨fun hx => hx, fun g₁ g₂ h1 _ => Option.noConfusion h1⟩
  | some b =>
    obtain ⟨mx, l⟩ := b
    simp only [hlk]
    have hpw : l.Pairwise pgLE :=
      navyTable1_bands_sorted (findClosestDepth d, (mx, l)) (alookup_mem hlk)
    constructor
    · intro hex
      by_cases ht1 : t₁ > mx
      · rw [if_pos (by omega : t₂ > mx)]
      · rw [if_neg ht1] at hex
        exact absurd hex (by simp)
    · intro g₁ g₂ h1 h2
      by_cases ht2 : t₂ > mx
      · rw [if_pos ht2] at h2
        exact Option.noConfusion h2
      · rw [if_neg ht2] at h2
        by_cases ht1 : t₁ > mx
        · exact absurd ht1 (by omega)
        · rw [if_neg ht1] at h1
          exact lookupGroup_mono l hpw h h1 h2

/-- Witness for singleDive_monotone at 60 ft between 20 and 30
minutes. -/
theorem singleDive_monotone_witness : pgIdx PGroup.D ≤ pgIdx PGroup.F :=
  (singleDive_monotone 60 (by decide) (by decide : (20 : ℕ) ≤ 30)).2
    PGroup.D PGroup.F (by decide) (by decide)

/-- C8.  calculateEAD and calculateActualDepthFromEAD are mutual
inverses on rationals (the round trip is exact, hence within 0.1 ft) for
any depth in 0..130 and oxygen percentage in 21..50. -/
theorem ead_roundtrip (d o2 : ℚ) (_h1 : 0 ≤ d) (_h2 : d ≤ 130)
    (_h3 : 21 ≤ o2) (h4 : o2 ≤ 50) :
    |calculateActualDepthFromEAD (calculateEAD d o2) o2 - d| ≤ 1 / 10 := by
  have hne : 1 - o2 / 100 ≠ 0 := by
    intro hc
    have : o2 = 100 := by linarith
    linarith
  have hne2 : (100 : ℚ) - o2 ≠ 0 := by
    intro hc
    have : o2 = 100 := by linarith
    linarith
  have hexact : calculateActualDepthFromEAD (calculateEAD d o2) o2 = d := by
    simp only [calculateActualDepthFromEAD, calculateEAD]
    field_simp
    ring
  rw [hexact, sub_self, abs_zero]
  norm_num

/-- Witness for ead_roundtrip at 100 ft on 32 percent oxygen. -/
theorem ead_roundtrip_witness :
    |calculateActualDepthFromEAD (calculateEAD 100 32) 32 - 100| ≤ 1 / 10 :=
  ead_roundtrip 100 32 (by norm_num) (by norm_num) (by norm_num) (by norm_num)

/-- C9.  calculateDaltonsTriangle succeeds exactly when two of the three
inputs are present, and fails (the thrown error, modelled as none) when
zero, one or three are present. -/
theorem daltons_exactly_two_inputs (depth fO2 pO2 : Option ℚ) :
    (calculateDaltonsTriangle depth fO2 pO2).isSome = true ↔
      numPresent depth fO2 pO2 = 2 := by
  cases depth <;> cases fO2 <;> cases pO2 <;>
    simp [calculateDaltonsTriangle, numPresent, Option.isSome]

/-- Witness for daltons_exactly_two_inputs: depth and oxygen fraction
given, partial pressure absent. -/
theorem daltons_exactly_two_inputs_witness :
    (calculateDaltonsTriangle (some 99) (some (21 / 100)) none).isSome = true :=
  (daltons_exactly_two_inputs (some 99) (some (21 / 100)) none).mpr (by decide)

/-- C10.  Any surface interval parsing to fewer than 10 minutes matches
no range (every row's first range starts at 10 minutes), so the result
is null, the same value returned for a starting group that is not a
table key and for the fully-off-gassed open-ended range at 12 hours. -/
theorem newPressureGroup_short_interval_null :
    (∀ hr mn : ℕ, parseTimeToMinutes (hr, mn) < 10 → ∀ g : PGroup,
        getNewPressureGroup (some g) (hr, mn) = none) ∧
    getNewPressureGroup none (1, 0) = none ∧
    getNewPressureGroup (some PGroup.A) (12, 0) = none := by
  refine ⟨?_, by decide, by decide⟩
  intro hr mn hlt g
  simp only [parseTimeToMinutes] at hlt
  have h0 : hr = 0 := by omega
  subst h0
  have hm : mn < 10 := by omega
  have key : ∀ m < 10, ∀ g' : PGroup,
      getNewPressureGroup (some g') (0, m) = none := by decide
  exact key mn hm g

/-- Witness for newPressureGroup_short_interval_null at group K and a
5 minute interval. -/
theorem newPressureGroup_short_interval_null_witness :
    getNewPressureGroup (some PGroup.K) (0, 5) = none :=
  newPressureGroup_short_interval_null.1 0 5 (by decide) PGroup.K
